import Mathlib

/-!
Shallow embedding of the B2B marketplace front-end
(`src/frontend/src/App.js`) for verifying the spec's claims about
its UI-level behaviour.

The embedding models:
* the JavaScript primitives the code relies on (string truthiness,
  implicit string-to-number coercion in `s > 0`, `parseInt`,
  `parseFloat`, `x || 0`, `prompt` returning `null` on cancel),
  restricted to plain decimal inputs (optional sign, digits, optional
  fractional part; no whitespace trimming, hex, or exponents). JS
  numbers are IEEE doubles; the inputs relevant here are small exact
  decimals, represented exactly as `num / 10 ^ exp` pairs (`DecNum`)
  with a `toRat` interpretation into `ℚ`;
* the request-issuing flows `createRFQ` (ProductList) and
  `submitQuote` (RFQList), as functions from the prompt results to the
  optional request body sent to the backend;
* the role-conditional rendering of the `Request Quote` and
  `Submit Quote` buttons, the navigation items, `renderContent`,
  the dashboard's fail-soft stats rendering, the `apiCall` helper and
  each call site's failure handling, the auth bootstrap effect in
  `AuthProvider`, and the registration form's state machine.
-/

namespace B2B

/-- An exact decimal number `num / 10 ^ exp`, the value class produced
by JS `ToNumber` / `parseFloat` on plain decimal strings (kept
unnormalised so that all comparisons stay kernel-computable). -/
structure DecNum where
  num : ℤ
  exp : ℕ
deriving DecidableEq, Repr

/-- The rational value denoted by a `DecNum`. -/
def DecNum.toRat (d : DecNum) : ℚ := (d.num : ℚ) / (10 : ℚ) ^ d.exp

/-- Positivity test on a `DecNum`, decided on the numerator. -/
def DecNum.isPos (d : DecNum) : Bool := decide (0 < d.num)

/-- Numeric value of a list of decimal digit characters
(most significant first). -/
def digitsVal (l : List Char) : ℕ :=
  l.foldl (fun a c => a * 10 + (c.toNat - 48)) 0

/-- Split an optional leading sign off a character list; returns
`(negative?, rest)`. -/
def splitSign : List Char → Bool × List Char
  | '-' :: rest => (true, rest)
  | '+' :: rest => (false, rest)
  | l => (false, l)

/-- Build the `DecNum` `±(ip . fp)` from sign, integer digits and
fraction digits. -/
def buildDec (neg : Bool) (ip fp : List Char) : DecNum :=
  let n : ℤ := (digitsVal ip : ℤ) * (10 : ℤ) ^ fp.length + (digitsVal fp : ℤ)
  { num := if neg then -n else n, exp := fp.length }

/-- JS `ToNumber` coercion on a string (as used implicitly by
`quantity > 0`), restricted to plain decimal literals: optional sign,
optional integer digits, optional `.` plus fraction digits, with at
least one digit present. `none` models `NaN`; the empty string
coerces to `0` as in JS. -/
def jsToNumber (s : String) : Option DecNum :=
  if s = "" then some ⟨0, 0⟩
  else
    let p := splitSign s.toList
    let ip := p.2.takeWhile Char.isDigit
    let rest := p.2.drop ip.length
    match rest with
    | [] => if ip.isEmpty then none else some (buildDec p.1 ip [])
    | '.' :: frac =>
      if frac.all Char.isDigit && !(ip.isEmpty && frac.isEmpty) then
        some (buildDec p.1 ip frac)
      else none
    | _ => none

/-- JS `parseInt(s)` (radix 10): optional sign then the longest prefix
of decimal digits; `none` models `NaN` (serialised as `null` in a JSON
body). Note `parseInt` stops at a decimal point, so
`parseInt("0.5") = 0`. -/
def jsParseInt (s : String) : Option ℤ :=
  let p := splitSign s.toList
  let ds := p.2.takeWhile Char.isDigit
  if ds.isEmpty then none
  else some (if p.1 then -(digitsVal ds : ℤ) else (digitsVal ds : ℤ))

/-- JS `parseFloat(s)`: optional sign, longest decimal-literal prefix;
`none` models `NaN`. -/
def jsParseFloat (s : String) : Option DecNum :=
  let p := splitSign s.toList
  let ip := p.2.takeWhile Char.isDigit
  let rest := p.2.drop ip.length
  let fp := match rest with
    | '.' :: r => r.takeWhile Char.isDigit
    | _ => []
  if ip.isEmpty && fp.isEmpty then none
  else some (buildDec p.1 ip fp)

/-- JS truthiness of a string: every non-empty string is truthy. -/
def jsTruthy (s : String) : Bool := s ≠ ""

/-- JS truthiness of a `prompt` result (`null` on cancel is falsy). -/
def jsTruthyOpt : Option String → Bool
  | some s => jsTruthy s
  | none => false

/-- The coerced comparison `s > 0` from
`if (quantity && quantity > 0)`: `ToNumber(s) > 0`, false on `NaN`. -/
def jsGtZero (s : String) : Bool :=
  match jsToNumber s with
  | some v => v.isPos
  | none => false

/-- Coalescing `prompt(...) || ''`: `null` (cancel) and `''` both
give `''`. -/
def orEmpty : Option String → String
  | some s => s
  | none => ""

/-- Body of the `POST /rfqs` request built by `createRFQ` in
`ProductList`. `quantity` is `parseInt(quantity)`; `none` models a
`NaN` that JSON-serialises as `null`. -/
structure RFQRequest where
  product_id : String
  quantity : Option ℤ
  message : String
  expires_in_days : ℕ
deriving DecidableEq, Repr

/-- Flow `createRFQ` from `ProductList` (App.js lines 425–445): prompts for
a quantity and a message; issues the request iff the quantity prompt
result is truthy and coerces to a number `> 0`; the body carries
`parseInt(quantity)` and the hardcoded `expires_in_days: 7`. Returns
the issued request body, or `none` when no request is issued. -/
def createRFQ (productId : String) (qIn mIn : Option String) : Option RFQRequest :=
  match qIn with
  | none => none
  | some q =>
    if jsTruthy q && jsGtZero q then
      some { product_id := productId
             quantity := jsParseInt q
             message := orEmpty mIn
             expires_in_days := 7 }
    else none

/-- Body of the `POST /quotes` request built by `submitQuote` in
`RFQList`. `price_per_unit` is `parseFloat(pricePerUnit)`; `none`
models `NaN`. -/
structure QuoteRequest where
  rfq_id : String
  price_per_unit : Option DecNum
  delivery_time : String
  message : String
deriving DecidableEq, Repr

/-- Flow `submitQuote` from `RFQList` (App.js lines 507–530): prompts for a
price per unit, a delivery time and a message; issues the request iff
both the price and the delivery-time prompt results are truthy
(`if (pricePerUnit && deliveryTime)`), with no check on the numeric
value of the price. Returns the issued request body, or `none` when no
request is issued. -/
def submitQuote (rfqId : String) (pIn dIn mIn : Option String) : Option QuoteRequest :=
  match pIn, dIn with
  | some p, some d =>
    if jsTruthy p && jsTruthy d then
      some { rfq_id := rfqId
             price_per_unit := jsParseFloat p
             delivery_time := d
             message := orEmpty mIn }
    else none
  | _, _ => none

/-! ### Role-conditional rendering of the action buttons -/

/-- From `ProductList` (App.js line 472): the `Request Quote` button — the
only path to `createRFQ` — is rendered iff `user.role === 'buyer'`. -/
def showRequestQuote (role : String) : Bool := role == "buyer"

/-- From `RFQList` (App.js line 570): the `Submit Quote` button — the only
path to `submitQuote` — is rendered for an RFQ card iff
`user.role === 'supplier' && rfq.status === 'open'`. -/
def showSubmitQuote (role status : String) : Bool :=
  role == "supplier" && status == "open"

/-! ### Navigation and view routing -/

/-- An entry of the `navItems` array in `Navigation`. -/
structure NavItem where
  key : String
  label : String
  roles : List String
deriving DecidableEq, Repr

/-- The `navItems` array (App.js lines 590–595). -/
def navItems : List NavItem :=
  [ ⟨"dashboard", "Dashboard", ["admin", "supplier", "buyer"]⟩,
    ⟨"products", "Products", ["admin", "supplier", "buyer"]⟩,
    ⟨"rfqs", "RFQs", ["supplier", "buyer"]⟩,
    ⟨"orders", "Orders", ["admin", "supplier", "buyer"]⟩ ]

/-- Definition `filteredNavItems` (App.js line 597): the nav entries whose `roles`
array contains the user's role; clicking one sets `currentView` to its
`key`. -/
def filteredNavItems (role : String) : List NavItem :=
  navItems.filter (fun item => item.roles.contains role)

/-- The components `renderContent` can return. -/
inductive View
  | dashboard
  | productList
  | rfqList
deriving DecidableEq, Repr

/-- Function `renderContent` (App.js lines 599–610): a switch on `currentView`
with cases for `dashboard`, `products` and `rfqs` and a default branch
returning the `Dashboard`. -/
def renderContent (currentView : String) : View :=
  if currentView = "dashboard" then .dashboard
  else if currentView = "products" then .productList
  else if currentView = "rfqs" then .rfqList
  else .dashboard

/-- The values `currentView` can take for a given role:
its initial value `'dashboard'` plus the keys of the rendered nav
buttons (the only writers of `currentView`). -/
def reachableViewKeys (role : String) : List String :=
  "dashboard" :: (filteredNavItems role).map NavItem.key

/-! ### Dashboard stats: fail-soft aggregation -/

/-- The named counters the dashboard reads off the stats response. -/
inductive Counter
  | total_users
  | total_products
  | total_orders
  | my_products
  | my_orders
  | pending_rfqs
  | my_rfqs
deriving DecidableEq, Repr

/-- A stats response as a partial mapping from counter names to
integer values (`none` = field absent from the JSON object). -/
def Stats : Type := Counter → Option ℤ

/-- The initial `stats` state `{}`: every field absent. -/
def emptyStats : Stats := fun _ => none

/-- JS `x || 0` on a counter read: an absent field (and `0`, which is
falsy) displays as `0`; any other number displays as itself. -/
def orZero : Option ℤ → ℤ
  | some n => if n = 0 then 0 else n
  | none => 0

/-- The dashboard state after its stats effect settles. -/
structure DashboardState where
  stats : Stats
  loading : Bool

/-- The `Dashboard` effect (App.js lines 337–342):
`apiCall('/dashboard/stats').then(setStats).catch(console.error)
.finally(() => setLoading(false))`. A failed fetch (`none`) is logged
and leaves `stats` at its initial `{}`; `loading` becomes `false`
either way, so the page (not the loading placeholder) renders. -/
def dashboardAfterFetch (result : Option Stats) : DashboardState :=
  { stats := match result with
      | some s => s
      | none => emptyStats
    loading := false }

/-- The number the dashboard renders for a counter
(`{stats.total_users || 0}` and the analogous reads,
App.js lines 354–401). -/
def displayedCounter (st : DashboardState) (c : Counter) : ℤ :=
  orZero (st.stats c)

/-! ### `apiCall` and per-command failure handling -/

/-- The part of a `fetch` response `apiCall` inspects. -/
structure Response where
  ok : Bool
  statusText : String
  body : String
deriving DecidableEq, Repr

/-- Helper `apiCall` (App.js lines 95–112): throws
`` `API call failed: ${response.statusText}` `` when `response.ok` is
false, otherwise resolves with the parsed body. -/
def apiCall (r : Response) : Except String String :=
  if r.ok then .ok r.body
  else .error ("API call failed: " ++ r.statusText)

/-- How a failure is brought to notice at a call site. -/
inductive Notice
  | alertMsg (msg : String)
  | consoleError (msg : String)
deriving DecidableEq, Repr

/-- The observable outcome of a command issued through the UI. -/
inductive Outcome
  | success (body : String)
  | noticed (n : Notice)
deriving DecidableEq, Repr

/-- The commands the UI issues through `apiCall`. -/
inductive Command
  | createRFQCmd
  | submitQuoteCmd
  | listProductsCmd
  | listRFQsCmd
  | statsFetchCmd
deriving DecidableEq, Repr

/-- Each call site's handling of a rejected `apiCall`:
`createRFQ` alerts `'Failed to create RFQ: ' + error.message`
(App.js line 442), `submitQuote` alerts
`'Failed to submit quote: ' + error.message` (line 527), and the
listing/stats effects pass the error to `console.error`
(lines 340, 421, 503). -/
def onFailure (c : Command) (errMsg : String) : Notice :=
  match c with
  | .createRFQCmd => .alertMsg ("Failed to create RFQ: " ++ errMsg)
  | .submitQuoteCmd => .alertMsg ("Failed to submit quote: " ++ errMsg)
  | .listProductsCmd => .consoleError errMsg
  | .listRFQsCmd => .consoleError errMsg
  | .statsFetchCmd => .consoleError errMsg

/-- Running a command: the `apiCall` result is either the resolved
body or the thrown message routed to that command's failure handler. -/
def runCommand (c : Command) (r : Response) : Outcome :=
  match apiCall r with
  | .ok body => .success body
  | .error e => .noticed (onFailure c e)

/-! ### Auth bootstrap and main-screen routing -/

/-- The part of the `/me` response payload the effect inspects:
`data.id` (`none` = field absent). -/
structure MePayload where
  id : Option String
deriving DecidableEq, Repr

/-- The auth state of `AuthProvider` after its token-validation
effect: `user`, the in-memory `token`, the `localStorage` entry, and
the `loading` flag. -/
structure AuthState where
  user : Option MePayload
  token : Option String
  storedToken : Option String
  loading : Bool
deriving DecidableEq, Repr

/-- The `AuthProvider` effect for a present token (App.js lines
23–45): on a resolved `/me` with truthy `data.id` the user is set;
otherwise (falsy `id`, or the fetch chain rejecting) the token is
removed from `localStorage` and set to `null`, leaving `user` at its
initial `null`; `finally` clears `loading`. -/
def authEffect (tok : String) (meResult : Except Unit MePayload) : AuthState :=
  match meResult with
  | .ok data =>
    if jsTruthyOpt data.id then
      { user := some data, token := some tok, storedToken := some tok, loading := false }
    else
      { user := none, token := none, storedToken := none, loading := false }
  | .error _ =>
      { user := none, token := none, storedToken := none, loading := false }

/-- The three top-level screens of `MainApp`. -/
inductive Screen
  | loadingScreen
  | authenticated
  | loginOrRegister
deriving DecidableEq, Repr

/-- Router `MainApp` (App.js lines 641–691): the loading placeholder while
`loading`, the authenticated layout when `user` is set, and the
login/register screens otherwise. -/
def renderMain (st : AuthState) : Screen :=
  if st.loading then .loadingScreen
  else if st.user.isSome then .authenticated
  else .loginOrRegister

/-! ### Registration form -/

/-- The `formData` state of `RegisterForm`. -/
structure RegisterFormData where
  email : String
  password : String
  company_name : String
  contact_person : String
  phone : String
  role : String
deriving DecidableEq, Repr

/-- The initial `formData` (App.js lines 211–218): all fields empty,
`role: 'buyer'`. -/
def initialFormData : RegisterFormData :=
  { email := "", password := "", company_name := "", contact_person := ""
    phone := "", role := "buyer" }

/-- The values offered by the role `<select>` (App.js lines 305–312):
only `buyer` and `supplier`. -/
def roleOptions : List String := ["buyer", "supplier"]

/-- A state update the form's controls can fire. The role select's
`onChange` receives `e.target.value`, which the DOM constrains to one
of the rendered `<option>` values, carried here as the constraint on
the `selectRole` payload. -/
inductive FormEvent
  | setEmail (s : String)
  | setPassword (s : String)
  | setCompanyName (s : String)
  | setContactPerson (s : String)
  | setPhone (s : String)
  | selectRole (s : String) (h : s ∈ roleOptions)

/-- The `setFormData({...formData, field: value})` updates. -/
def applyEvent (fd : RegisterFormData) : FormEvent → RegisterFormData
  | .setEmail s => { fd with email := s }
  | .setPassword s => { fd with password := s }
  | .setCompanyName s => { fd with company_name := s }
  | .setContactPerson s => { fd with contact_person := s }
  | .setPhone s => { fd with phone := s }
  | .selectRole s _ => { fd with role := s }

/-- The form data after a sequence of control events, starting from
the initial state; `handleSubmit` passes this very object to
`register`. -/
def runForm (events : List FormEvent) : RegisterFormData :=
  events.foldl applyEvent initialFormData

/-! ## Helper lemmas -/

/-- Positivity test `DecNum.isPos` agrees with positivity of the
denoted rational value. -/
theorem DecNum.isPos_iff (d : DecNum) : d.isPos = true ↔ 0 < d.toRat := by
  have hpow : (0 : ℚ) < (10 : ℚ) ^ d.exp := by positivity
  rw [DecNum.isPos, DecNum.toRat, decide_eq_true_iff, div_pos_iff]
  constructor
  · intro h
    exact Or.inl ⟨by exact_mod_cast h, hpow⟩
  · rintro (⟨h, -⟩ | ⟨-, h⟩)
    · exact_mod_cast h
    · exact absurd hpow (not_lt.mpr h.le)

/-- Guard `jsGtZero` holds exactly when the string coerces to a number
whose value is strictly positive. -/
theorem jsGtZero_iff (s : String) :
    jsGtZero s = true ↔ ∃ d, jsToNumber s = some d ∧ 0 < d.toRat := by
  rw [jsGtZero]
  cases h : jsToNumber s with
  | none => simp
  | some d => simp [DecNum.isPos_iff]

/-- Reduction of `createRFQ` at a non-cancelled quantity prompt. -/
theorem createRFQ_some (pid q : String) (mIn : Option String) :
    createRFQ pid (some q) mIn =
      if jsTruthy q && jsGtZero q then
        some { product_id := pid, quantity := jsParseInt q
               message := orEmpty mIn, expires_in_days := 7 }
      else none := rfl

/-- Reduction of `submitQuote` at non-cancelled prompts. -/
theorem submitQuote_some (rfqId p d : String) (mIn : Option String) :
    submitQuote rfqId (some p) (some d) mIn =
      if jsTruthy p && jsTruthy d then
        some { rfq_id := rfqId, price_per_unit := jsParseFloat p
               delivery_time := d, message := orEmpty mIn }
      else none := rfl

/-- A single form-control event preserves membership of the role field
in the rendered option values. -/
theorem applyEvent_role_mem (fd : RegisterFormData) (e : FormEvent)
    (h : fd.role ∈ roleOptions) : (applyEvent fd e).role ∈ roleOptions := by
  cases e with
  | selectRole s hs => simpa [applyEvent] using hs
  | setEmail s => simpa [applyEvent] using h
  | setPassword s => simpa [applyEvent] using h
  | setCompanyName s => simpa [applyEvent] using h
  | setContactPerson s => simpa [applyEvent] using h
  | setPhone s => simpa [applyEvent] using h

/-- Folding any sequence of form events preserves membership of the
role field in the rendered option values. -/
theorem foldl_role_mem (events : List FormEvent) (fd : RegisterFormData)
    (h : fd.role ∈ roleOptions) :
    (events.foldl applyEvent fd).role ∈ roleOptions := by
  induction events generalizing fd with
  | nil => exact h
  | cons e rest ih =>
    rw [List.foldl_cons]
    exact ih _ (applyEvent_role_mem fd e h)

end B2B

namespace B2B

/-! ## Claim theorems -/

/-- C1: the authorization matrix is enforced at the UI. The
`Request Quote` button (the only path to `createRFQ`) is rendered
exactly for role `buyer`; the `Submit Quote` button (the only path to
`submitQuote`) is rendered exactly for role `supplier` on an RFQ with
status `open`; in particular a buyer never sees a quote-submission
path and a supplier never sees an RFQ-creation path. -/
theorem createRFQ_submitQuote_role_gating (role status : String) :
    (showRequestQuote role = true ↔ role = "buyer") ∧
    (showSubmitQuote role status = true ↔ role = "supplier" ∧ status = "open") ∧
    showSubmitQuote "buyer" status = false ∧
    showRequestQuote "supplier" = false := by
  refine ⟨?_, ?_, ?_, ?_⟩
  · simp [showRequestQuote]
  · simp [showSubmitQuote]
  · simp [showSubmitQuote]
  · simp [showRequestQuote]

/-- C2 counterexample: the UI does not reject a non-positive price.
With price input `"-5"` (truthy, parses to −5 ≤ 0) and a delivery
time, `submitQuote` issues the quote request carrying price −5 instead
of rejecting it. -/
theorem submitQuote_accepts_nonpositive_price :
    submitQuote "r1" (some "-5") (some "2 days") none =
      some { rfq_id := "r1", price_per_unit := some ⟨-5, 0⟩
             delivery_time := "2 days", message := "" } ∧
    (DecNum.mk (-5) 0).toRat ≤ 0 := by
  constructor
  · decide
  · norm_num [DecNum.toRat]

/-- C2 amended: the `submitQuote` flow only checks that the price and
delivery-time prompts return truthy (non-empty) strings; whenever both
do, the request is issued with `parseFloat(price)` unvalidated — the
price's numeric value, including zero or negative values, is never
checked by the UI. -/
theorem submitQuote_guard_characterisation (rfqId : String) (pIn dIn mIn : Option String) :
    ((submitQuote rfqId pIn dIn mIn).isSome ↔
      jsTruthyOpt pIn = true ∧ jsTruthyOpt dIn = true) ∧
    (∀ req, submitQuote rfqId pIn dIn mIn = some req →
      ∃ p, pIn = some p ∧ req.price_per_unit = jsParseFloat p) := by
  cases pIn with
  | none => simp [submitQuote, jsTruthyOpt]
  | some p =>
    cases dIn with
    | none => simp [submitQuote, jsTruthyOpt]
    | some d =>
      constructor
      · by_cases hp : jsTruthy p = true <;> by_cases hd : jsTruthy d = true <;>
          simp [submitQuote, jsTruthyOpt, hp, hd]
      · intro req hreq
        refine ⟨p, rfl, ?_⟩
        by_cases hp : jsTruthy p = true <;> by_cases hd : jsTruthy d = true <;>
          simp [submitQuote, hp, hd] at hreq
        rw [← hreq]

/-- C2 amended, witness: at price `"9"` and delivery `"2 days"` the
request is issued and carries `parseFloat("9")`. -/
theorem submitQuote_guard_characterisation_witness :
    ∃ p, (some "9" : Option String) = some p ∧
      QuoteRequest.price_per_unit
        { rfq_id := "r1", price_per_unit := some ⟨9, 0⟩
          delivery_time := "2 days", message := "" } = jsParseFloat p :=
  (submitQuote_guard_characterisation "r1" (some "9") (some "2 days") none).2
    { rfq_id := "r1", price_per_unit := some ⟨9, 0⟩
      delivery_time := "2 days", message := "" } (by decide)

/-- C3 counterexample: the `rfqs` navigation item is not offered to an
admin, and no view key reachable for an admin renders the `RFQList`
component, so an admin cannot reach the RFQ listing at all. -/
theorem admin_cannot_reach_rfq_list :
    "rfqs" ∉ (filteredNavItems "admin").map NavItem.key ∧
    (reachableViewKeys "admin").all (fun k => renderContent k != View.rfqList) = true := by
  constructor
  · decide
  · decide

/-- C3 amended: the RFQ listing is reachable exactly for roles
`supplier` and `buyer` — the `rfqs` navigation item is offered to a
role iff that role is `supplier` or `buyer`; `admin` has no rendered
path to the RFQ listing view. -/
theorem rfq_listing_reachable_roles (role : String) :
    "rfqs" ∈ (filteredNavItems role).map NavItem.key ↔
      role = "supplier" ∨ role = "buyer" := by
  constructor
  · intro h
    obtain ⟨item, hmem, hkey⟩ := List.mem_map.mp h
    obtain ⟨hin, hroles⟩ := List.mem_filter.mp hmem
    fin_cases hin <;> simp_all
  · rintro (rfl | rfl) <;>
    · refine List.mem_map.mpr ⟨⟨"rfqs", "RFQs", ["supplier", "buyer"]⟩, ?_, rfl⟩
      exact List.mem_filter.mpr ⟨by decide, by decide⟩

/-- C4 counterexample: the quantity input `"0.5"` is truthy and
coerces to `1/2 > 0`, so the guard passes, yet the issued request
carries `parseInt("0.5") = 0` — a request is issued whose sent
quantity is not an integer greater than 0. -/
theorem createRFQ_sends_zero_quantity :
    createRFQ "p1" (some "0.5") none =
      some { product_id := "p1", quantity := some 0, message := ""
             expires_in_days := 7 } ∧
    jsToNumber "0.5" = some ⟨5, 1⟩ ∧
    (DecNum.mk 5 1).toRat = 1 / 2 := by
  refine ⟨by decide, by decide, ?_⟩
  norm_num [DecNum.toRat]

/-- C4 amended: a request is issued exactly when the quantity prompt
returns a truthy (non-empty) string that coerces to a number `> 0` —
so empty, non-numeric and non-positive inputs never produce a
request — but the quantity sent is `parseInt(input)`, which truncates
and can be `0` for positive fractional inputs below 1. -/
theorem createRFQ_guard_characterisation (pid : String) (qIn mIn : Option String) :
    ((createRFQ pid qIn mIn).isSome ↔
      ∃ q, qIn = some q ∧ jsTruthy q = true ∧
        ∃ d, jsToNumber q = some d ∧ 0 < d.toRat) ∧
    (∀ r, createRFQ pid qIn mIn = some r →
      ∃ q, qIn = some q ∧ r.quantity = jsParseInt q) := by
  cases qIn with
  | none => simp [createRFQ]
  | some q =>
    rw [createRFQ_some]
    by_cases hqg : (jsTruthy q && jsGtZero q) = true
    · obtain ⟨hq, hg⟩ := Bool.and_eq_true_iff.mp hqg
      rw [if_pos hqg]
      constructor
      · simp only [Option.isSome_some, true_iff]
        exact ⟨q, rfl, hq, (jsGtZero_iff q).mp hg⟩
      · intro r hr
        obtain rfl := Option.some_inj.mp hr
        exact ⟨q, rfl, rfl⟩
    · rw [if_neg hqg]
      refine ⟨?_, fun r hr => Option.noConfusion hr⟩
      simp only [Option.isSome_none, Bool.false_eq_true, false_iff]
      rintro ⟨q', hq', htr, d, hd, hpos⟩
      obtain rfl : q' = q := by injection hq'.symm
      exact hqg (by simp [htr, (jsGtZero_iff _).mpr ⟨d, hd, hpos⟩])

/-- C4 amended, witness: at quantity input `"5"` the request is issued
and carries `parseInt("5") = 5`. -/
theorem createRFQ_guard_characterisation_witness :
    ∃ q, (some "5" : Option String) = some q ∧
      RFQRequest.quantity
        { product_id := "p1", quantity := some 5, message := ""
          expires_in_days := 7 } = jsParseInt q :=
  (createRFQ_guard_characterisation "p1" (some "5") none).2
    { product_id := "p1", quantity := some 5, message := ""
      expires_in_days := 7 } (by decide)

/-- C5: stats aggregation is fail-soft. After the stats effect
settles — whatever the fetch result — the dashboard leaves its loading
placeholder and renders the page; a counter absent from the response
displays as `0`; and on a failed fetch (which is only logged, not
rethrown) every counter displays as `0`. -/
theorem dashboard_stats_fail_soft (result : Option Stats) (c : Counter) :
    (dashboardAfterFetch result).loading = false ∧
    ((dashboardAfterFetch result).stats c = none →
      displayedCounter (dashboardAfterFetch result) c = 0) ∧
    (result = none → displayedCounter (dashboardAfterFetch result) c = 0) := by
  refine ⟨rfl, ?_, ?_⟩
  · intro h
    rw [displayedCounter, h]
    rfl
  · rintro rfl
    rfl

/-- C5 witness: a failed stats fetch renders the page with the
`total_users` counter displayed as `0`. -/
theorem dashboard_stats_fail_soft_witness :
    (dashboardAfterFetch none).loading = false ∧
    displayedCounter (dashboardAfterFetch (some emptyStats)) Counter.total_users = 0 ∧
    displayedCounter (dashboardAfterFetch none) Counter.total_users = 0 :=
  ⟨(dashboard_stats_fail_soft none Counter.total_users).1,
   (dashboard_stats_fail_soft (some emptyStats) Counter.total_users).2.1 rfl,
   (dashboard_stats_fail_soft none Counter.total_users).2.2 rfl⟩

/-- C6: no command error is silently swallowed. `apiCall` throws
`` `API call failed: ${statusText}` `` on every non-ok response, and
every call site routes that failure to a notice — an alert for RFQ
creation and quote submission, `console.error` for the listings (and
for the fail-soft stats fetch) — so no command ever completes as a
silent success on a failing response. -/
theorem commands_surface_failures (c : Command) (r : Response) (h : r.ok = false) :
    apiCall r = .error ("API call failed: " ++ r.statusText) ∧
    runCommand c r = .noticed (onFailure c ("API call failed: " ++ r.statusText)) ∧
    ∀ body, runCommand c r ≠ .success body := by
  have hcall : apiCall r = .error ("API call failed: " ++ r.statusText) := by
    rw [apiCall, h]
    rfl
  refine ⟨hcall, ?_, ?_⟩
  · rw [runCommand, hcall]
  · intro body hbody
    rw [runCommand, hcall] at hbody
    exact Outcome.noConfusion hbody

/-- C6 witness: a rejected RFQ-creation call produces the
`Failed to create RFQ` alert. -/
theorem commands_surface_failures_witness :
    runCommand Command.createRFQCmd ⟨false, "Forbidden", ""⟩ =
      Outcome.noticed (Notice.alertMsg "Failed to create RFQ: API call failed: Forbidden") :=
  (commands_surface_failures Command.createRFQCmd ⟨false, "Forbidden", ""⟩ rfl).2.1

/-- C7: every RFQ-creation request issued by the UI carries
`expires_in_days = 7`, the hardcoded default validity window. -/
theorem createRFQ_validity_window (pid : String) (qIn mIn : Option String)
    (r : RFQRequest) (h : createRFQ pid qIn mIn = some r) :
    r.expires_in_days = 7 := by
  cases qIn with
  | none => exact Option.noConfusion h
  | some q =>
    rw [createRFQ_some] at h
    by_cases hqg : (jsTruthy q && jsGtZero q) = true
    · rw [if_pos hqg] at h
      obtain rfl := Option.some_inj.mp h
      rfl
    · rw [if_neg hqg] at h
      exact Option.noConfusion h

/-- C7 witness: the request issued for quantity input `"5"` carries
`expires_in_days = 7`. -/
theorem createRFQ_validity_window_witness :
    RFQRequest.expires_in_days
      { product_id := "p1", quantity := some 5, message := ""
        expires_in_days := 7 } = 7 :=
  createRFQ_validity_window "p1" (some "5") none
    { product_id := "p1", quantity := some 5, message := ""
      expires_in_days := 7 } (by decide)

/-- C8: an invalid credential forces re-authentication. If the `/me`
lookup rejects, or resolves with a payload whose `id` is absent, the
effect removes the token from storage and memory, leaves the user
`null`, clears `loading`, and `MainApp` renders the login/register
screen instead of any authenticated view. -/
theorem invalid_credential_forces_login (tok : String) (meResult : Except Unit MePayload)
    (h : meResult = .error () ∨ ∃ d, meResult = .ok d ∧ d.id = none) :
    (authEffect tok meResult).storedToken = none ∧
    (authEffect tok meResult).token = none ∧
    (authEffect tok meResult).user = none ∧
    (authEffect tok meResult).loading = false ∧
    renderMain (authEffect tok meResult) = Screen.loginOrRegister := by
  rcases h with rfl | ⟨d, rfl, hid⟩
  · exact ⟨rfl, rfl, rfl, rfl, rfl⟩
  · rw [authEffect, hid]
    exact ⟨rfl, rfl, rfl, rfl, rfl⟩

/-- C8 witness: a rejected `/me` fetch lands on the login screen with
no token anywhere. -/
theorem invalid_credential_forces_login_witness :
    (authEffect "tok" (.error ())).storedToken = none ∧
    renderMain (authEffect "tok" (.error ())) = Screen.loginOrRegister :=
  ⟨(invalid_credential_forces_login "tok" (.error ()) (Or.inl rfl)).1,
   (invalid_credential_forces_login "tok" (.error ()) (Or.inl rfl)).2.2.2.2⟩

/-- C9: self-registration can never produce an admin. The form's role
field starts as `buyer`, the role select offers only `buyer` and
`supplier`, and every reachable form state — hence every submitted
registration — has its role in `{buyer, supplier}`. -/
theorem registration_role_restricted (events : List FormEvent) :
    initialFormData.role = "buyer" ∧
    roleOptions = ["buyer", "supplier"] ∧
    (runForm events).role ∈ roleOptions :=
  ⟨rfl, rfl, foldl_role_mem events initialFormData (by decide)⟩

/-- C10: the `Orders` navigation item is offered to every role, yet
`renderContent` has no `orders` case, so selecting it — like any
`currentView` outside `dashboard`/`products`/`rfqs` — falls through to
the default branch and renders the `Dashboard`; no Orders view
exists. -/
theorem orders_renders_dashboard :
    (∀ role ∈ (["admin", "supplier", "buyer"] : List String),
      "orders" ∈ (filteredNavItems role).map NavItem.key) ∧
    renderContent "orders" = View.dashboard ∧
    (∀ v, v ≠ "dashboard" → v ≠ "products" → v ≠ "rfqs" →
      renderContent v = View.dashboard) := by
  refine ⟨by decide, rfl, ?_⟩
  intro v h1 h2 h3
  rw [renderContent, if_neg h1, if_neg h2, if_neg h3]

/-- C10 witness: every role's nav offers `orders`, and selecting it
renders the `Dashboard`. -/
theorem orders_renders_dashboard_witness :
    "orders" ∈ (filteredNavItems "admin").map NavItem.key ∧
    renderContent "orders" = View.dashboard :=
  ⟨orders_renders_dashboard.1 "admin" (by decide),
   orders_renders_dashboard.2.2 "orders" (by decide) (by decide) (by decide)⟩

end B2B
